import Mathlib

set_option maxHeartbeats 1000000

/-!
Shallow embedding of the response-normalization layer of the grub-frontend
repository: the generic request wrapper `apiRequest` (its try block and its
catch block), the axios request interceptor installed by `createApiClient`,
and the device-id helpers `generateDeviceId` / `getDeviceId`.

JavaScript runtime values that can appear as response bodies, error payloads
and error-object fields are modelled by `JValue`; JavaScript truthiness,
property access, the `in` operator, strict string comparison and the `||`
operator are modelled by `truthy`, `getField`, `hasField`, `matchCode` and
`jsOr`.  Reading the clock (`new Date().toISOString()`) is modelled by a
`now : String` parameter, and the module constant `API_BASE_URL` by a
`baseURL : String` parameter.
-/

/-- A JavaScript runtime value, as far as the normalizer inspects one:
`undefined`, `null`, booleans, numbers (integer model), strings, arrays and
plain objects (ordered field lists, first occurrence of a key wins). -/
inductive JValue where
  | undefined
  | null
  | bool (b : Bool)
  | num (n : Int)
  | str (s : String)
  | arr (elems : List JValue)
  | obj (fields : List (String × JValue))

/-- JavaScript truthiness of a value. -/
def truthy : JValue → Bool
  | .undefined => false
  | .null => false
  | .bool b => b
  | .num n => !(n == 0)
  | .str s => !(s == "")
  | .arr _ => true
  | .obj _ => true

/-- Is the value exactly `undefined`. -/
def isUndefined : JValue → Bool
  | .undefined => true
  | _ => false

/-- Is the value exactly `null`. -/
def isNull : JValue → Bool
  | .null => true
  | _ => false

/-- Does `typeof v` evaluate to the string "object" (true for objects, arrays
and `null`). -/
def typeofObject : JValue → Bool
  | .null => true
  | .arr _ => true
  | .obj _ => true
  | _ => false

/-- Does `typeof v` evaluate to the string "string". -/
def isStr : JValue → Bool
  | .str _ => true
  | _ => false

/-- JavaScript property read `v[k]`: the stored field of an object, else
`undefined` (property lookup on non-objects yields `undefined` for the keys
the normalizer uses). -/
def getField : JValue → String → JValue
  | .obj fs, k =>
    match fs.lookup k with
    | some v => v
    | none => .undefined
  | _, _ => .undefined

/-- The JavaScript `k in v` test, as used on values already known to be of
object type. -/
def hasField : JValue → String → Bool
  | .obj fs, k => (fs.lookup k).isSome
  | _, _ => false

/-- The JavaScript `a || b` operator: `a` when truthy, else `b`. -/
def jsOr (a b : JValue) : JValue :=
  if truthy a then a else b

/-- Strict comparison `v === lit` of a value against a string literal. -/
def matchCode (v : JValue) (lit : String) : Bool :=
  match v with
  | .str s => s == lit
  | _ => false

/-- Does the character list `l` start with the character list `p`. -/
def startsWithSeq : List Char → List Char → Bool
  | _, [] => true
  | [], _ :: _ => false
  | a :: as, b :: bs => a == b && startsWithSeq as bs

/-- Does the character list `l` contain `sub` as a contiguous run. -/
def containsSeq : List Char → List Char → Bool
  | [], sub => sub.isEmpty
  | a :: as, sub => startsWithSeq (a :: as) sub || containsSeq as sub

/-- The JavaScript `String.prototype.includes` test applied to a value
(`false` on non-strings; the source only reaches it on string messages). -/
def jsIncludes (v : JValue) (sub : String) : Bool :=
  match v with
  | .str s => containsSeq s.data sub.data
  | _ => false

mutual
/-- JavaScript string coercion of a value, as used by template-literal
interpolation. -/
def jsToString : JValue → String
  | .undefined => "undefined"
  | .null => "null"
  | .bool b => if b then "true" else "false"
  | .num n => toString n
  | .str s => s
  | .arr l => jsToStringList l
  | .obj _ => "[object Object]"

/-- Array coercion: elements joined with commas. -/
def jsToStringList : List JValue → String
  | [] => ""
  | [v] => jsToString v
  | v :: rest => jsToString v ++ "," ++ jsToStringList rest
end

/-- The part of an axios error response that the catch block inspects:
`error.response.status` and `error.response.data`. -/
structure RespVal where
  status : Nat
  data : JValue

/-- A JavaScript failure value as the catch block sees it: thrown ApiError
objects, JS Error objects and axios transport errors all carry (possibly
undefined) `response`, `code`, `message` and `timestamp` properties. -/
structure ErrVal where
  response : Option RespVal
  code : JValue
  message : JValue
  timestamp : JValue

/-- The value built by a JavaScript `new Error(m)`: a message, no `code`, no
`timestamp`, no attached response. -/
def jsError (m : String) : ErrVal :=
  { response := none, code := .undefined, message := .str m, timestamp := .undefined }

/-- `error.response?.status` in the catch block. -/
def respStatus (e : ErrVal) : Option Nat :=
  e.response.map (·.status)

/-- `error.response?.data` in the catch block (`undefined` when no response
is attached). -/
def respData (e : ErrVal) : JValue :=
  match e.response with
  | some r => r.data
  | none => .undefined

/-- The settling of the transport: either an HTTP success whose parsed body
reaches the try block, or a raised failure value that reaches the catch
block (axios raises on every 4xx and 5xx status). -/
inductive Outcome where
  | ok (responseData : JValue)
  | err (e : ErrVal)

/-- The source default for the module constant API_BASE_URL. -/
def API_BASE_URL : String := "http://localhost:8520"

/-- The try block of apiRequest (source lines 116 to 156): envelope
detection, envelope-failure throw, data unwrapping, and the boolean
sentinel for success responses without data. -/
def apiRequestTry (now : String) (responseData : JValue) : Except ErrVal JValue :=
  if truthy responseData && typeofObject responseData && hasField responseData "success" then
    if !(truthy (getField responseData "success")) then
      .error { response := none
             , code := getField responseData "error"
             , message := jsOr (getField responseData "message") (.str "API request failed")
             , timestamp := .str now }
    else if !(isUndefined (getField responseData "data")) then
      .ok (getField responseData "data")
    else
      .ok (.bool true)
  else if !(isNull responseData) && !(isUndefined responseData) then
    .ok responseData
  else
    .ok (.bool true)

/-- Message extraction from a failure body (source lines 189 to 202):
string bodies become the message, object bodies are probed field by field
with the JavaScript or-chain, anything else keeps the default. -/
def extractMessage (body transportMsg : JValue) : JValue :=
  if isStr body then body
  else if typeofObject body then
    jsOr (getField body "message")
      (jsOr (getField body "error")
        (jsOr (getField body "errorMessage")
          (jsOr (getField body "msg")
            (jsOr transportMsg (.str "API request failed")))))
  else .str "API request failed"

/-- Code extraction from a failure body (source lines 204 to 207). -/
def extractCode (body : JValue) : JValue :=
  if isStr body then .undefined
  else if typeofObject body then
    jsOr (getField body "code")
      (jsOr (getField body "errorCode") (getField body "statusCode"))
  else .undefined

/-- The error thrown when a 503 response carries no usable body. -/
def serviceUnavailableError : ErrVal :=
  jsError "Service temporarily unavailable"

/-- The catch block of apiRequest (source lines 157 to 252): 503 degraded
extraction, failure-body extraction, transport-code classification,
idempotent re-raise of already-normalized errors, and the unknown-error
fallback. -/
def apiRequestCatch (baseURL now : String) (error : ErrVal) : Except ErrVal JValue :=
  if respStatus error = some 503 then
    if truthy (respData error) then
      if truthy (getField (respData error) "success")
          && !(isUndefined (getField (respData error) "data")) then
        .ok (getField (respData error) "data")
      else if !(isNull (respData error)) && !(isUndefined (respData error)) then
        .ok (respData error)
      else .error serviceUnavailableError
    else .error serviceUnavailableError
  else if truthy (respData error) then
    .error { response := none
           , code := extractCode (respData error)
           , message := extractMessage (respData error) error.message
           , timestamp := .str now }
  else if matchCode error.code "ERR_NETWORK" || matchCode error.code "NETWORK_ERROR"
      || matchCode error.code "ECONNABORTED" then
    .error (jsError ("Network error: "
      ++ (jsToString error.message
        ++ ". Please check if the API server is running and CORS is configured.")))
  else if matchCode error.code "ECONNREFUSED" then
    .error (jsError ("Connection refused: Cannot connect to API server at "
      ++ (baseURL ++ ". Please check if the server is running.")))
  else if matchCode error.code "ECONNABORTED" && jsIncludes error.message "timeout" then
    .error (jsError "Request timeout: API server took too long to respond.")
  else if truthy error.message && truthy error.timestamp then
    .error error
  else
    .error { response := none
           , code := .undefined
           , message := jsOr error.message (.str "An unexpected error occurred")
           , timestamp := .str now }

/-- The whole of apiRequest: a successful transport outcome runs the try
block, and anything the try block throws, as well as any transport failure,
runs the catch block. -/
def apiRequest (baseURL now : String) (o : Outcome) : Except ErrVal JValue :=
  match o with
  | .ok d =>
    match apiRequestTry now d with
    | .ok v => .ok v
    | .error e => apiRequestCatch baseURL now e
  | .err e => apiRequestCatch baseURL now e

/-!
Request decorator: the axios request interceptor installed by
createApiClient, together with the device-id helpers.  The module-level
mutable variable deviceId, the localStorage slot grub_device_id and the
entropy drawn from the clock and Math.random are made explicit: the state
carries the memoized id, the stored id and a seed index into an entropy
stream ent : Nat → String, each draw consuming one index.
-/

/-- Ambient facts the interceptor branches on: whether a window object
exists (browser vs server-side rendering) and the held API key. -/
structure InterceptorEnv where
  isBrowser : Bool
  apiKey : String

/-- The mutable state the interceptor reads and writes. -/
structure ClientState where
  deviceId : Option String
  stored : Option String
  seed : Nat

/-- The three headers the interceptor attaches. -/
structure RequestHeaders where
  deviceId : String
  correlationId : String
  authorization : Option String

/-- generateDeviceId (source lines 15 to 31): in a browser, reuse the stored
id or mint and store a fresh web-prefixed one; during server-side rendering
mint a fresh ssr-prefixed one. -/
def generateDeviceId (env : InterceptorEnv) (ent : Nat → String) (st : ClientState) :
    String × ClientState :=
  if env.isBrowser then
    match st.stored with
    | some s => (s, st)
    | none =>
      let id := "web_" ++ ent st.seed
      (id, { st with stored := some id, seed := st.seed + 1 })
  else
    ("ssr_" ++ ent st.seed, { st with seed := st.seed + 1 })

/-- getDeviceId (source lines 33 to 38): memoize the generated id in the
module-level variable. -/
def getDeviceId (env : InterceptorEnv) (ent : Nat → String) (st : ClientState) :
    String × ClientState :=
  match st.deviceId with
  | some d => (d, st)
  | none =>
    let g := generateDeviceId env ent st
    (g.1, { g.2 with deviceId := some g.1 })

/-- The request interceptor (source lines 51 to 73): attach the memoized
device id, a bearer credential when in a browser and a key is held, and a
freshly generated correlation id. -/
def requestInterceptor (env : InterceptorEnv) (ent : Nat → String) (st : ClientState) :
    RequestHeaders × ClientState :=
  let dres := getDeviceId env ent st
  let auth : Option String :=
    if env.isBrowser then
      if !(env.apiKey == "") then some ("Bearer " ++ env.apiKey) else none
    else none
  ({ deviceId := dres.1
   , correlationId := "web_" ++ ent dres.2.seed
   , authorization := auth },
   { dres.2 with seed := dres.2.seed + 1 })

/-- A process running n requests in sequence, collecting the headers each
one was sent with. -/
def runRequests (env : InterceptorEnv) (ent : Nat → String) :
    ClientState → Nat → List RequestHeaders × ClientState
  | st, 0 => ([], st)
  | st, n + 1 =>
    let r := requestInterceptor env ent st
    let rest := runRequests env ent r.2 n
    (r.1 :: rest.1, rest.2)

/-- Specification-side or-chain: the first truthy value of the list, else
the final fallback. -/
def firstTruthy : List JValue → JValue → JValue
  | [], d => d
  | v :: vs, d => if truthy v then v else firstTruthy vs d

/-!
Helper lemmas.
-/

/-- Truthiness of the or-operator is the disjunction of truthiness. -/
theorem truthy_jsOr (a b : JValue) : truthy (jsOr a b) = (truthy a || truthy b) := by
  unfold jsOr
  cases h : truthy a <;> simp [h]

/-- A truthy value is neither null nor undefined. -/
theorem truthy_ne_nullish {v : JValue} (h : truthy v = true) :
    isNull v = false ∧ isUndefined v = false := by
  cases v <;> simp_all [truthy, isNull, isUndefined]

/-- String concatenation acts as list concatenation on the character data. -/
theorem string_data_append : ∀ (s t : String), (s ++ t).data = s.data ++ t.data
  | ⟨_⟩, ⟨_⟩ => rfl

/-- A string with a non-empty prefix is truthy. -/
theorem truthy_str_append (s t : String) (hs : s.data ≠ []) :
    truthy (.str (s ++ t)) = true := by
  have hne : s ++ t ≠ "" := by
    intro h
    apply hs
    have hd := congrArg String.data h
    rw [string_data_append] at hd
    exact (List.append_eq_nil.mp hd).1
  simp [truthy, hne]

/-- The or-operator returns its left operand when that operand is truthy. -/
theorem jsOr_of_truthy {a : JValue} (b : JValue) (h : truthy a = true) : jsOr a b = a := by
  simp [jsOr, h]

/-- The extracted failure message is truthy whenever the failure body that
fed it is truthy. -/
theorem extractMessage_truthy (body t : JValue) (hb : truthy body = true) :
    truthy (extractMessage body t) = true := by
  unfold extractMessage
  split
  · exact hb
  · split
    · have hd : truthy (JValue.str "API request failed") = true := rfl
      simp [truthy_jsOr, hd]
    · rfl

/-!
Claim C4: envelope success with data round-trips the data value exactly.
-/

/-- C4: for every value X other than undefined, including null, arrays,
nested objects and primitives, a success response with body
(success true, data X) resolves with exactly X. -/
theorem envelope_success_data_roundtrip (baseURL now : String) (X : JValue)
    (hX : isUndefined X = false) :
    apiRequest baseURL now (.ok (.obj [("success", .bool true), ("data", X)])) = .ok X := by
  have hl1 : getField (.obj [("success", .bool true), ("data", X)]) "success" = .bool true := rfl
  have hl2 : getField (.obj [("success", .bool true), ("data", X)]) "data" = X := rfl
  have hl3 : hasField (.obj [("success", .bool true), ("data", X)]) "success" = true := rfl
  have ht : apiRequestTry now (.obj [("success", .bool true), ("data", X)]) = .ok X := by
    simp [apiRequestTry, hl1, hl2, hl3, hX, truthy, typeofObject]
  simp [apiRequest, ht]

/-- Witness for C4 at the null-as-data corner case. -/
theorem envelope_success_data_roundtrip_witness :
    apiRequest API_BASE_URL "2024-06-01T00:00:00Z"
      (.ok (.obj [("success", .bool true), ("data", .null)])) = .ok .null :=
  envelope_success_data_roundtrip API_BASE_URL "2024-06-01T00:00:00Z" .null rfl

/-!
Claim C8: success without a data key, and null or absent bodies, resolve
with the boolean sentinel true.
-/

/-- C8: an envelope body with success true but no data key resolves with the
boolean sentinel true, and so do a null body and an absent body. -/
theorem success_without_data_sentinel (baseURL now : String) (l : List (String × JValue))
    (hsucc : l.lookup "success" = some (.bool true))
    (hnodata : l.lookup "data" = none) :
    apiRequest baseURL now (.ok (.obj l)) = .ok (.bool true)
    ∧ apiRequest baseURL now (.ok .null) = .ok (.bool true)
    ∧ apiRequest baseURL now (.ok .undefined) = .ok (.bool true) := by
  refine ⟨?_, rfl, rfl⟩
  have h1 : hasField (.obj l) "success" = true := by simp [hasField, hsucc]
  have h2 : getField (.obj l) "success" = .bool true := by simp [getField, hsucc]
  have h3 : getField (.obj l) "data" = .undefined := by simp [getField, hnodata]
  have ht : apiRequestTry now (.obj l) = .ok (.bool true) := by
    simp [apiRequestTry, h1, h2, h3, truthy, typeofObject, isUndefined]
  simp [apiRequest, ht]

/-- Witness for C8 on a delete-style envelope with a message but no data. -/
theorem success_without_data_sentinel_witness :
    apiRequest API_BASE_URL "2024-06-01T00:00:00Z"
      (.ok (.obj [("success", .bool true), ("message", .str "Deleted")])) = .ok (.bool true)
    ∧ apiRequest API_BASE_URL "2024-06-01T00:00:00Z" (.ok .null) = .ok (.bool true)
    ∧ apiRequest API_BASE_URL "2024-06-01T00:00:00Z" (.ok .undefined) = .ok (.bool true) :=
  success_without_data_sentinel API_BASE_URL "2024-06-01T00:00:00Z"
    [("success", .bool true), ("message", .str "Deleted")] rfl rfl

/-!
Claim C2: 503 degradation, the two behaviours the specification claims.
-/

/-- C2: a 503 failure whose body is an envelope with success true and a
present data field resolves with that data, and a 503 failure whose body
yields no payload (a falsy body) rejects with exactly the message
Service temporarily unavailable. -/
theorem status503_degradation (baseURL now : String) (e f : ErrVal)
    (l : List (String × JValue)) (bf : JValue)
    (he : e.response = some ⟨503, .obj l⟩)
    (hsucc : l.lookup "success" = some (.bool true))
    (hdata : isUndefined (getField (.obj l) "data") = false)
    (hf : f.response = some ⟨503, bf⟩)
    (hbf : truthy bf = false) :
    apiRequest baseURL now (.err e) = .ok (getField (.obj l) "data")
    ∧ apiRequest baseURL now (.err f) = .error serviceUnavailableError := by
  constructor
  · show apiRequestCatch baseURL now e = _
    have h1 : respStatus e = some 503 := by simp [respStatus, he]
    have h2 : respData e = .obj l := by simp [respData, he]
    have h3 : getField (.obj l) "success" = .bool true := by simp [getField, hsucc]
    simp [apiRequestCatch, h1, h2, h3, truthy, hdata]
  · show apiRequestCatch baseURL now f = _
    have h1 : respStatus f = some 503 := by simp [respStatus, hf]
    have h2 : respData f = bf := by simp [respData, hf]
    simp [apiRequestCatch, h1, h2, hbf]

/-- Witness for C2: the P8 instances from the specification. -/
theorem status503_degradation_witness :
    apiRequest API_BASE_URL "2024-06-01T00:00:00Z"
      (.err { response := some ⟨503, .obj [("success", .bool true),
                ("data", .arr [.num 1, .num 2, .num 3])]⟩
            , code := .undefined
            , message := .str "Request failed with status code 503"
            , timestamp := .undefined })
      = .ok (getField (.obj [("success", .bool true),
          ("data", .arr [.num 1, .num 2, .num 3])]) "data")
    ∧ apiRequest API_BASE_URL "2024-06-01T00:00:00Z"
      (.err { response := some ⟨503, .null⟩
            , code := .undefined
            , message := .str "Request failed with status code 503"
            , timestamp := .undefined })
      = .error serviceUnavailableError :=
  status503_degradation API_BASE_URL "2024-06-01T00:00:00Z" _ _ _ _ rfl rfl rfl rfl rfl

/-!
Claim C10: 503 with a truthy body that is not an unwrappable success
envelope resolves with the raw body verbatim.
-/

/-- C10: a 503 failure whose body is truthy but not an envelope with truthy
success and present data resolves with the raw body itself. -/
theorem status503_bare_body_passthrough (baseURL now : String) (e : ErrVal) (body : JValue)
    (he : e.response = some ⟨503, body⟩)
    (hb : truthy body = true)
    (hne : (truthy (getField body "success") && !(isUndefined (getField body "data"))) = false) :
    apiRequest baseURL now (.err e) = .ok body := by
  show apiRequestCatch baseURL now e = _
  have h1 : respStatus e = some 503 := by simp [respStatus, he]
  have h2 : respData e = body := by simp [respData, he]
  have h3 := truthy_ne_nullish hb
  simp [apiRequestCatch, h1, h2, hb, hne, h3.1, h3.2]

/-- Witness for C10: a failure envelope delivered at 503 becomes the
payload. -/
theorem status503_bare_body_passthrough_witness :
    apiRequest API_BASE_URL "2024-06-01T00:00:00Z"
      (.err { response := some ⟨503, .obj [("success", .bool false), ("message", .str "down")]⟩
            , code := .undefined
            , message := .str "Request failed with status code 503"
            , timestamp := .undefined })
      = .ok (.obj [("success", .bool false), ("message", .str "down")]) :=
  status503_bare_body_passthrough API_BASE_URL "2024-06-01T00:00:00Z" _ _ rfl rfl rfl

/-!
Claim C1: what every rejection actually guarantees.
-/

/-- Every error value produced by the catch block carries a truthy message. -/
theorem apiRequestCatch_error_truthy (baseURL now : String) (e r : ErrVal)
    (h : apiRequestCatch baseURL now e = .error r) : truthy r.message = true := by
  unfold apiRequestCatch at h
  split at h
  · split at h
    · split at h
      · exact Except.noConfusion h
      · split at h
        · exact Except.noConfusion h
        · injection h with h2
          subst h2
          rfl
    · injection h with h2
      subst h2
      rfl
  · split at h
    · rename_i hb
      injection h with h2
      subst h2
      exact extractMessage_truthy _ _ hb
    · split at h
      · injection h with h2
        subst h2
        exact truthy_str_append "Network error: " _ (by simp)
      · split at h
        · injection h with h2
          subst h2
          exact truthy_str_append "Connection refused: Cannot connect to API server at " _
            (by simp)
        · split at h
          · injection h with h2
            subst h2
            rfl
          · split at h
            · rename_i hmt
              injection h with h2
              subst h2
              simp only [Bool.and_eq_true] at hmt
              exact hmt.1
            · injection h with h2
              subst h2
              have hd : truthy (JValue.str "An unexpected error occurred") = true := rfl
              show truthy (jsOr e.message (.str "An unexpected error occurred")) = true
              simp [truthy_jsOr, hd]

/-- C1 (amended): every input on which apiRequest rejects yields a rejected
value whose message is truthy (in particular a non-empty string whenever it
is a string at all); the stronger original claim that every rejection also
carries a timestamp is refuted in rejects_without_timestamp_503. -/
theorem rejection_message_truthy (baseURL now : String) (o : Outcome) (r : ErrVal)
    (h : apiRequest baseURL now o = .error r) : truthy r.message = true := by
  cases o with
  | err e => exact apiRequestCatch_error_truthy baseURL now e r h
  | ok d =>
    have h2 : (match apiRequestTry now d with
               | .ok v => (.ok v : Except ErrVal JValue)
               | .error e => apiRequestCatch baseURL now e) = .error r := h
    cases htry : apiRequestTry now d with
    | ok v =>
      rw [htry] at h2
      exact Except.noConfusion h2
    | error e =>
      rw [htry] at h2
      exact apiRequestCatch_error_truthy baseURL now e r h2

/-- Witness for C1 at a concrete unknown-shape failure. -/
theorem rejection_message_truthy_witness :
    truthy (ErrVal.mk none .undefined (.str "boom") (.str "2024-06-01T00:00:00Z")).message
      = true :=
  rejection_message_truthy API_BASE_URL "2024-06-01T00:00:00Z"
    (.err { response := none, code := .undefined, message := .str "boom", timestamp := .undefined })
    (ErrVal.mk none .undefined (.str "boom") (.str "2024-06-01T00:00:00Z")) rfl

/-- Counterexample to C1 as stated: a 503 failure with no body rejects with
a plain Error object whose timestamp property is undefined, so not every
rejection carries a timestamp set at normalization time. -/
theorem rejects_without_timestamp_503 :
    apiRequest API_BASE_URL "2024-06-01T00:00:00Z"
      (.err { response := some ⟨503, .undefined⟩
            , code := .str "ERR_BAD_RESPONSE"
            , message := .str "Request failed with status code 503"
            , timestamp := .undefined })
      = .error serviceUnavailableError
    ∧ serviceUnavailableError.timestamp = .undefined := ⟨rfl, rfl⟩

/-!
Claim C5: idempotent re-raise of already-normalized errors.
-/

/-- The catch block re-raises unchanged any failure value with no attached
response, truthy message and timestamp, and a non-transport code. -/
theorem apiRequestCatch_reraise (baseURL now : String) (e : ErrVal)
    (hresp : e.response = none)
    (hmsg : truthy e.message = true)
    (hts : truthy e.timestamp = true)
    (h1 : matchCode e.code "ERR_NETWORK" = false)
    (h2 : matchCode e.code "NETWORK_ERROR" = false)
    (h3 : matchCode e.code "ECONNABORTED" = false)
    (h4 : matchCode e.code "ECONNREFUSED" = false) :
    apiRequestCatch baseURL now e = .error e := by
  have hs : respStatus e = none := by simp [respStatus, hresp]
  have hd : respData e = .undefined := by simp [respData, hresp]
  have hu : truthy JValue.undefined = false := rfl
  simp [apiRequestCatch, hs, hd, h1, h2, h3, h4, hmsg, hts, hu]

/-- C5 (amended): a failure value with truthy message and timestamp fields,
no attached HTTP response, and a code that is none of the four transport
codes is re-raised unchanged by the failure path. -/
theorem normalized_error_reraise (baseURL now : String) (e : ErrVal)
    (hresp : e.response = none)
    (hmsg : truthy e.message = true)
    (hts : truthy e.timestamp = true)
    (h1 : matchCode e.code "ERR_NETWORK" = false)
    (h2 : matchCode e.code "NETWORK_ERROR" = false)
    (h3 : matchCode e.code "ECONNABORTED" = false)
    (h4 : matchCode e.code "ECONNREFUSED" = false) :
    apiRequest baseURL now (.err e) = .error e :=
  apiRequestCatch_reraise baseURL now e hresp hmsg hts h1 h2 h3 h4

/-- Witness for C5 at a concrete already-normalized error. -/
theorem normalized_error_reraise_witness :
    apiRequest API_BASE_URL "2024-06-01T00:00:00Z"
      (.err { response := none, code := .str "E_CUSTOM"
            , message := .str "already normalized"
            , timestamp := .str "2024-01-01T00:00:00Z" })
      = .error { response := none, code := .str "E_CUSTOM"
               , message := .str "already normalized"
               , timestamp := .str "2024-01-01T00:00:00Z" } :=
  normalized_error_reraise API_BASE_URL "2024-06-01T00:00:00Z"
    { response := none, code := .str "E_CUSTOM"
    , message := .str "already normalized"
    , timestamp := .str "2024-01-01T00:00:00Z" }
    rfl rfl rfl rfl rfl rfl rfl

/-- Counterexample to C5 as stated: a failure value that has both a message
and a timestamp field and no attached response, but whose code property is
the transport code ERR_NETWORK, is not re-raised unchanged: the catch block
replaces it with a freshly built network Error. -/
theorem normalized_error_network_code_rewrapped :
    apiRequest API_BASE_URL "2024-06-01T00:00:00Z"
      (.err { response := none, code := .str "ERR_NETWORK"
            , message := .str "boom"
            , timestamp := .str "2024-01-01T00:00:00Z" })
      = .error (jsError
          "Network error: boom. Please check if the API server is running and CORS is configured.")
    ∧ jsError
        "Network error: boom. Please check if the API server is running and CORS is configured."
      ≠ { response := none, code := .str "ERR_NETWORK"
        , message := .str "boom"
        , timestamp := .str "2024-01-01T00:00:00Z" } :=
  ⟨rfl, fun h => JValue.noConfusion
    (show JValue.undefined = JValue.str "ERR_NETWORK" from congrArg ErrVal.code h)⟩

/-!
Claim C3: envelope failure bodies at 200 versus at 4xx and 5xx.
-/

/-- C3 (amended): an envelope failure body with non-empty string message ms
and string error code cs behaves by status.  Delivered at a 2xx status it
rejects with message ms, code cs and a fresh timestamp, provided cs is none
of the four transport codes, which the catch block would otherwise
reclassify.  Delivered on a raised 4xx or 5xx failure other than 503 it
still rejects with message ms, but the code is read from the code,
errorCode and statusCode fields of the body and is therefore undefined for
this shape.  Delivered on a raised 503 it does not reject at all: the
failure envelope itself resolves verbatim as the payload. -/
theorem envelope_failure_normalization (baseURL now ms cs tm : String)
    (st2 : Nat) (ec ec2 : JValue)
    (hms : ms ≠ "") (hnow : now ≠ "") (hst : st2 ≠ 503)
    (hc1 : cs ≠ "ERR_NETWORK") (hc2 : cs ≠ "NETWORK_ERROR")
    (hc3 : cs ≠ "ECONNABORTED") (hc4 : cs ≠ "ECONNREFUSED") :
    apiRequest baseURL now
      (.ok (.obj [("success", .bool false), ("message", .str ms), ("error", .str cs)]))
      = .error { response := none, code := .str cs, message := .str ms, timestamp := .str now }
    ∧ apiRequest baseURL now
      (.err { response := some ⟨st2,
                .obj [("success", .bool false), ("message", .str ms), ("error", .str cs)]⟩
            , code := ec, message := .str tm, timestamp := .undefined })
      = .error { response := none, code := .undefined, message := .str ms, timestamp := .str now }
    ∧ apiRequest baseURL now
      (.err { response := some ⟨503,
                .obj [("success", .bool false), ("message", .str ms), ("error", .str cs)]⟩
            , code := ec2, message := .str tm, timestamp := .undefined })
      = .ok (.obj [("success", .bool false), ("message", .str ms), ("error", .str cs)]) := by
  have hms2 : truthy (.str ms) = true := by simp [truthy, hms]
  have hnow2 : truthy (.str now) = true := by simp [truthy, hnow]
  refine ⟨?_, ?_, ?_⟩
  · have hgm : getField (.obj [("success", .bool false), ("message", .str ms),
        ("error", .str cs)]) "message" = .str ms := rfl
    have hgs : getField (.obj [("success", .bool false), ("message", .str ms),
        ("error", .str cs)]) "success" = .bool false := rfl
    have hge : getField (.obj [("success", .bool false), ("message", .str ms),
        ("error", .str cs)]) "error" = .str cs := rfl
    have hhf : hasField (.obj [("success", .bool false), ("message", .str ms),
        ("error", .str cs)]) "success" = true := rfl
    have ht : apiRequestTry now
        (.obj [("success", .bool false), ("message", .str ms), ("error", .str cs)])
        = .error ⟨none, .str cs, .str ms, .str now⟩ := by
      simp [apiRequestTry, hgm, hgs, hge, hhf, truthy, typeofObject, jsOr_of_truthy _ hms2]
    have hcatch : apiRequestCatch baseURL now ⟨none, .str cs, .str ms, .str now⟩
        = .error ⟨none, .str cs, .str ms, .str now⟩ := by
      apply apiRequestCatch_reraise
      · rfl
      · exact hms2
      · exact hnow2
      · simp [matchCode, hc1]
      · simp [matchCode, hc2]
      · simp [matchCode, hc3]
      · simp [matchCode, hc4]
    simp [apiRequest, ht, hcatch]
  · show apiRequestCatch baseURL now
      ⟨some ⟨st2, .obj [("success", .bool false), ("message", .str ms), ("error", .str cs)]⟩,
        ec, .str tm, .undefined⟩ = _
    have hsr : respStatus ⟨some ⟨st2,
        .obj [("success", .bool false), ("message", .str ms), ("error", .str cs)]⟩,
        ec, .str tm, .undefined⟩ = some st2 := rfl
    have hdr : respData ⟨some ⟨st2,
        .obj [("success", .bool false), ("message", .str ms), ("error", .str cs)]⟩,
        ec, .str tm, .undefined⟩
        = .obj [("success", .bool false), ("message", .str ms), ("error", .str cs)] := rfl
    have hgm : getField (.obj [("success", .bool false), ("message", .str ms),
        ("error", .str cs)]) "message" = .str ms := rfl
    have hm : extractMessage
        (.obj [("success", .bool false), ("message", .str ms), ("error", .str cs)]) (.str tm)
        = .str ms := by
      simp [extractMessage, isStr, typeofObject, hgm, jsOr_of_truthy _ hms2]
    have hc : extractCode
        (.obj [("success", .bool false), ("message", .str ms), ("error", .str cs)])
        = .undefined := rfl
    simp [apiRequestCatch, hsr, hdr, hst, hm, hc, truthy]
  · show apiRequestCatch baseURL now
      ⟨some ⟨503, .obj [("success", .bool false), ("message", .str ms), ("error", .str cs)]⟩,
        ec2, .str tm, .undefined⟩ = _
    have hsr : respStatus ⟨some ⟨503,
        .obj [("success", .bool false), ("message", .str ms), ("error", .str cs)]⟩,
        ec2, .str tm, .undefined⟩ = some 503 := rfl
    have hdr : respData ⟨some ⟨503,
        .obj [("success", .bool false), ("message", .str ms), ("error", .str cs)]⟩,
        ec2, .str tm, .undefined⟩
        = .obj [("success", .bool false), ("message", .str ms), ("error", .str cs)] := rfl
    have hgs : getField (.obj [("success", .bool false), ("message", .str ms),
        ("error", .str cs)]) "success" = .bool false := rfl
    simp [apiRequestCatch, hsr, hdr, hgs, truthy, isNull, isUndefined]

/-- Witness for C3 at the P4 instance of the specification. -/
theorem envelope_failure_normalization_witness :
    apiRequest API_BASE_URL "2024-06-01T00:00:00Z"
      (.ok (.obj [("success", .bool false), ("message", .str "Validation failed"),
        ("error", .str "INVALID_DATA")]))
      = .error { response := none, code := .str "INVALID_DATA"
               , message := .str "Validation failed"
               , timestamp := .str "2024-06-01T00:00:00Z" }
    ∧ apiRequest API_BASE_URL "2024-06-01T00:00:00Z"
      (.err { response := some ⟨400,
                .obj [("success", .bool false), ("message", .str "Validation failed"),
                  ("error", .str "INVALID_DATA")]⟩
            , code := .str "ERR_BAD_REQUEST"
            , message := .str "Request failed with status code 400"
            , timestamp := .undefined })
      = .error { response := none, code := .undefined
               , message := .str "Validation failed"
               , timestamp := .str "2024-06-01T00:00:00Z" }
    ∧ apiRequest API_BASE_URL "2024-06-01T00:00:00Z"
      (.err { response := some ⟨503,
                .obj [("success", .bool false), ("message", .str "Validation failed"),
                  ("error", .str "INVALID_DATA")]⟩
            , code := .str "ERR_BAD_RESPONSE"
            , message := .str "Request failed with status code 400"
            , timestamp := .undefined })
      = .ok (.obj [("success", .bool false), ("message", .str "Validation failed"),
          ("error", .str "INVALID_DATA")]) :=
  envelope_failure_normalization API_BASE_URL "2024-06-01T00:00:00Z"
    "Validation failed" "INVALID_DATA" "Request failed with status code 400"
    400 (.str "ERR_BAD_REQUEST") (.str "ERR_BAD_RESPONSE")
    (by decide) (by decide) (by decide) (by decide) (by decide) (by decide) (by decide)

/-- Counterexample to C3 as stated: the P4 envelope delivered at HTTP 400
rejects with an undefined code, not with the envelope error INVALID_DATA,
because the catch block reads only the code, errorCode and statusCode
fields of a failure body. -/
theorem envelope_error_code_lost_at_400 :
    apiRequest API_BASE_URL "2024-06-01T00:00:00Z"
      (.err { response := some ⟨400,
                .obj [("success", .bool false), ("message", .str "Validation failed"),
                  ("error", .str "INVALID_DATA")]⟩
            , code := .str "ERR_BAD_REQUEST"
            , message := .str "Request failed with status code 400"
            , timestamp := .undefined })
      = .error { response := none, code := .undefined
               , message := .str "Validation failed"
               , timestamp := .str "2024-06-01T00:00:00Z" }
    ∧ JValue.undefined ≠ JValue.str "INVALID_DATA" :=
  ⟨rfl, fun h => JValue.noConfusion h⟩

/-!
Claim C6: transport failure classification without a body.
-/

/-- C6 (code evaluation): a transport failure with no response that is
tagged as a timeout in the only way the source recognises one (code
ECONNABORTED with a message containing the word timeout) is intercepted by
the earlier network branch and rejects with the generic network message,
never reaching the dedicated took-too-long branch, which is unreachable. -/
theorem timeout_shadowed_by_network_branch (baseURL now : String) (e : ErrVal)
    (hresp : e.response = none)
    (hcode : matchCode e.code "ECONNABORTED" = true)
    (_hto : jsIncludes e.message "timeout" = true) :
    apiRequest baseURL now (.err e)
      = .error (jsError ("Network error: "
          ++ (jsToString e.message
            ++ ". Please check if the API server is running and CORS is configured."))) := by
  show apiRequestCatch baseURL now e = _
  have hs : respStatus e = none := by simp [respStatus, hresp]
  have hd : respData e = .undefined := by simp [respData, hresp]
  have hu : truthy JValue.undefined = false := rfl
  simp [apiRequestCatch, hs, hd, hu, hcode]

/-- Witness for C6 at the axios timeout error shape; the produced message is
the network one, not the dedicated timeout message. -/
theorem timeout_shadowed_by_network_branch_witness :
    apiRequest API_BASE_URL "2024-06-01T00:00:00Z"
      (.err { response := none, code := .str "ECONNABORTED"
            , message := .str "timeout of 30000ms exceeded", timestamp := .undefined })
      = .error (jsError ("Network error: "
          ++ (jsToString (.str "timeout of 30000ms exceeded")
            ++ ". Please check if the API server is running and CORS is configured.")))
    ∧ ("Network error: timeout of 30000ms exceeded. Please check if the API server is running and CORS is configured."
        ≠ "Request timeout: API server took too long to respond.") :=
  ⟨timeout_shadowed_by_network_branch API_BASE_URL "2024-06-01T00:00:00Z"
    { response := none, code := .str "ECONNABORTED"
    , message := .str "timeout of 30000ms exceeded", timestamp := .undefined }
    rfl rfl rfl, by decide⟩

/-!
Claim C7: message and code extraction from failure bodies.
-/

/-- The cons step of the specification-side or-chain agrees with the
JavaScript or-operator. -/
theorem firstTruthy_eq_jsOr (v : JValue) (vs : List JValue) (d : JValue) :
    firstTruthy (v :: vs) d = jsOr v (firstTruthy vs d) := rfl

/-- C7 (amended): for a non-503 failure with a structured object body the
rejected message is the first truthy (not first defined) of the message,
error, errorMessage and msg fields, then the transport message, then the
default, and the rejected code is the first truthy of code and errorCode,
then the statusCode field; a non-empty string body becomes the message. -/
theorem failure_body_extraction (baseURL now : String) (e f : ErrVal) (s1 s2 : Nat)
    (l : List (String × JValue)) (bs : String)
    (he : e.response = some ⟨s1, .obj l⟩) (hs1 : s1 ≠ 503)
    (hf : f.response = some ⟨s2, .str bs⟩) (hs2 : s2 ≠ 503) (hbs : bs ≠ "") :
    apiRequest baseURL now (.err e)
      = .error { response := none
               , code := firstTruthy [getField (.obj l) "code", getField (.obj l) "errorCode"]
                   (getField (.obj l) "statusCode")
               , message := firstTruthy [getField (.obj l) "message", getField (.obj l) "error",
                   getField (.obj l) "errorMessage", getField (.obj l) "msg", e.message]
                   (.str "API request failed")
               , timestamp := .str now }
    ∧ apiRequest baseURL now (.err f)
      = .error { response := none, code := .undefined, message := .str bs
               , timestamp := .str now } := by
  constructor
  · show apiRequestCatch baseURL now e = _
    have hsr : respStatus e = some s1 := by simp [respStatus, he]
    have hdr : respData e = .obj l := by simp [respData, he]
    have hm : extractMessage (.obj l) e.message
        = firstTruthy [getField (.obj l) "message", getField (.obj l) "error",
            getField (.obj l) "errorMessage", getField (.obj l) "msg", e.message]
            (.str "API request failed") := by
      simp [extractMessage, isStr, typeofObject, firstTruthy, jsOr]
    have hco : extractCode (.obj l)
        = firstTruthy [getField (.obj l) "code", getField (.obj l) "errorCode"]
            (getField (.obj l) "statusCode") := by
      simp [extractCode, isStr, typeofObject, firstTruthy, jsOr]
    simp [apiRequestCatch, hsr, hdr, hs1, hm, hco, truthy]
  · show apiRequestCatch baseURL now f = _
    have hsr : respStatus f = some s2 := by simp [respStatus, hf]
    have hdr : respData f = .str bs := by simp [respData, hf]
    have hbs2 : truthy (.str bs) = true := by simp [truthy, hbs]
    have hm : extractMessage (.str bs) f.message = .str bs := by simp [extractMessage, isStr]
    have hco : extractCode (.str bs) = .undefined := by simp [extractCode, isStr]
    simp [apiRequestCatch, hsr, hdr, hs2, hm, hco, hbs2]

/-- Witness for C7: a body using only the msg and statusCode fallbacks, and
the P5 string body. -/
theorem failure_body_extraction_witness :
    apiRequest API_BASE_URL "2024-06-01T00:00:00Z"
      (.err { response := some ⟨500, .obj [("msg", .str "low level"), ("statusCode", .num 500)]⟩
            , code := .undefined, message := .str "Request failed with status code 500"
            , timestamp := .undefined })
      = .error { response := none
               , code := firstTruthy
                   [getField (.obj [("msg", .str "low level"), ("statusCode", .num 500)]) "code",
                    getField (.obj [("msg", .str "low level"), ("statusCode", .num 500)]) "errorCode"]
                   (getField (.obj [("msg", .str "low level"), ("statusCode", .num 500)]) "statusCode")
               , message := firstTruthy
                   [getField (.obj [("msg", .str "low level"), ("statusCode", .num 500)]) "message",
                    getField (.obj [("msg", .str "low level"), ("statusCode", .num 500)]) "error",
                    getField (.obj [("msg", .str "low level"), ("statusCode", .num 500)]) "errorMessage",
                    getField (.obj [("msg", .str "low level"), ("statusCode", .num 500)]) "msg",
                    .str "Request failed with status code 500"]
                   (.str "API request failed")
               , timestamp := .str "2024-06-01T00:00:00Z" }
    ∧ apiRequest API_BASE_URL "2024-06-01T00:00:00Z"
      (.err { response := some ⟨500, .str "Internal server error"⟩
            , code := .undefined, message := .str "Request failed with status code 500"
            , timestamp := .undefined })
      = .error { response := none, code := .undefined, message := .str "Internal server error"
               , timestamp := .str "2024-06-01T00:00:00Z" } :=
  failure_body_extraction API_BASE_URL "2024-06-01T00:00:00Z" _ _ 500 500
    [("msg", .str "low level"), ("statusCode", .num 500)] "Internal server error"
    rfl (by decide) rfl (by decide) (by decide)

/-- Counterexample to C7 as stated: a 500 failure whose body defines message
as the empty string and error as boom rejects with message boom, because
the source chains the candidates with the truthiness or-operator, whereas
the claim requires the first defined candidate, the empty string. -/
theorem message_first_truthy_not_first_defined :
    apiRequest API_BASE_URL "2024-06-01T00:00:00Z"
      (.err { response := some ⟨500, .obj [("message", .str ""), ("error", .str "boom")]⟩
            , code := .undefined, message := .str "Request failed with status code 500"
            , timestamp := .undefined })
      = .error { response := none, code := .undefined, message := .str "boom"
               , timestamp := .str "2024-06-01T00:00:00Z" }
    ∧ JValue.str "boom" ≠ JValue.str "" := by
  constructor
  · rfl
  · intro h
    rw [JValue.str.injEq] at h
    exact absurd h (by decide)

/-!
Claim C9: request decoration lemmas.
-/

/-- After any call, the module-level device id memo holds exactly the id
that was returned. -/
theorem getDeviceId_memo (env : InterceptorEnv) (ent : Nat → String) (st : ClientState) :
    ((getDeviceId env ent st).2).deviceId = some (getDeviceId env ent st).1 := by
  unfold getDeviceId
  cases h : st.deviceId with
  | some d => simp [h]
  | none => simp [h]

/-- When the memo is already filled, getDeviceId returns it and leaves the
state untouched. -/
theorem getDeviceId_stable (env : InterceptorEnv) (ent : Nat → String) (st : ClientState)
    (d : String) (h : st.deviceId = some d) :
    (getDeviceId env ent st).1 = d ∧ (getDeviceId env ent st).2 = st := by
  unfold getDeviceId
  simp [h]

/-- getDeviceId never decreases the entropy seed. -/
theorem getDeviceId_seed_le (env : InterceptorEnv) (ent : Nat → String) (st : ClientState) :
    st.seed ≤ ((getDeviceId env ent st).2).seed := by
  unfold getDeviceId generateDeviceId
  cases h : st.deviceId with
  | some d => simp [h]
  | none =>
    cases hb : env.isBrowser with
    | true =>
      cases hs : st.stored with
      | some s => simp [h, hb, hs]
      | none => simp [h, hb, hs]
    | false => simp [h, hb]

/-- The device header of a request is whatever getDeviceId returns. -/
theorem requestInterceptor_device (env : InterceptorEnv) (ent : Nat → String)
    (st : ClientState) :
    ((requestInterceptor env ent st).1).deviceId = (getDeviceId env ent st).1 := rfl

/-- After a request, the memo holds the device header that was just sent. -/
theorem requestInterceptor_state_device (env : InterceptorEnv) (ent : Nat → String)
    (st : ClientState) :
    ((requestInterceptor env ent st).2).deviceId
      = some ((requestInterceptor env ent st).1.deviceId) := by
  show ((getDeviceId env ent st).2).deviceId = some (getDeviceId env ent st).1
  exact getDeviceId_memo env ent st

/-- The correlation header consumes the post-device seed, which the request
then advances past. -/
theorem requestInterceptor_corr (env : InterceptorEnv) (ent : Nat → String)
    (st : ClientState) :
    ((requestInterceptor env ent st).1).correlationId
      = "web_" ++ ent ((getDeviceId env ent st).2).seed
    ∧ ((requestInterceptor env ent st).2).seed = ((getDeviceId env ent st).2).seed + 1 :=
  ⟨rfl, rfl⟩

/-- The bearer header is attached exactly in a browser holding a non-empty
key. -/
theorem requestInterceptor_auth (env : InterceptorEnv) (ent : Nat → String)
    (st : ClientState) :
    ((requestInterceptor env ent st).1).authorization
      = if env.isBrowser && !(env.apiKey == "") then some ("Bearer " ++ env.apiKey)
        else none := by
  show (if env.isBrowser then
          if !(env.apiKey == "") then some ("Bearer " ++ env.apiKey) else none
        else none) = _
  cases env.isBrowser <;> simp

/-- A run of requests never decreases the entropy seed. -/
theorem runRequests_seed_le (env : InterceptorEnv) (ent : Nat → String) :
    ∀ (n : Nat) (st : ClientState), st.seed ≤ ((runRequests env ent st n).2).seed
  | 0, _ => le_refl _
  | n + 1, st => by
    have h1 : ((requestInterceptor env ent st).2).seed
        = ((getDeviceId env ent st).2).seed + 1 := rfl
    have h2 := getDeviceId_seed_le env ent st
    have h3 := runRequests_seed_le env ent n (requestInterceptor env ent st).2
    show st.seed ≤ ((runRequests env ent (requestInterceptor env ent st).2 n).2).seed
    omega

/-- Once the memo holds d, every request of a run carries device header d. -/
theorem runRequests_device_memo (env : InterceptorEnv) (ent : Nat → String) :
    ∀ (n : Nat) (st : ClientState) (d : String), st.deviceId = some d →
      ∀ h ∈ (runRequests env ent st n).1, h.deviceId = d
  | 0, st, d, _, h, hm => absurd hm (by simp [runRequests])
  | n + 1, st, d, hd, h, hm => by
    simp only [runRequests] at hm
    rcases List.mem_cons.mp hm with h1 | h2
    · subst h1
      rw [requestInterceptor_device]
      exact (getDeviceId_stable env ent st d hd).1
    · apply runRequests_device_memo env ent n (requestInterceptor env ent st).2 d ?_ h h2
      rw [requestInterceptor_state_device, requestInterceptor_device]
      rw [(getDeviceId_stable env ent st d hd).1]

/-- Every request of a run carries the device id fixed at first use. -/
theorem runRequests_device_stable (env : InterceptorEnv) (ent : Nat → String) :
    ∀ (n : Nat) (st : ClientState),
      ∀ h ∈ (runRequests env ent st n).1, h.deviceId = (getDeviceId env ent st).1
  | 0, st, h, hm => absurd hm (by simp [runRequests])
  | n + 1, st, h, hm => by
    simp only [runRequests] at hm
    rcases List.mem_cons.mp hm with h1 | h2
    · subst h1
      exact requestInterceptor_device env ent st
    · apply runRequests_device_memo env ent n (requestInterceptor env ent st).2 _ ?_ h h2
      rw [requestInterceptor_state_device, requestInterceptor_device]

/-- Every correlation header of a run is drawn from a seed inside the run
window. -/
theorem runRequests_corr_seed (env : InterceptorEnv) (ent : Nat → String) :
    ∀ (n : Nat) (st : ClientState), ∀ h ∈ (runRequests env ent st n).1,
      ∃ s, st.seed ≤ s ∧ s < ((runRequests env ent st n).2).seed
        ∧ h.correlationId = "web_" ++ ent s
  | 0, st, h, hm => absurd hm (by simp [runRequests])
  | n + 1, st, h, hm => by
    simp only [runRequests] at hm
    have hpost : ((requestInterceptor env ent st).2).seed
        = ((getDeviceId env ent st).2).seed + 1 := rfl
    have hge := getDeviceId_seed_le env ent st
    have hrun := runRequests_seed_le env ent n (requestInterceptor env ent st).2
    rcases List.mem_cons.mp hm with h1 | h2
    · subst h1
      refine ⟨((getDeviceId env ent st).2).seed, hge, ?_, rfl⟩
      show _ < ((runRequests env ent (requestInterceptor env ent st).2 n).2).seed
      omega
    · rcases runRequests_corr_seed env ent n (requestInterceptor env ent st).2 h h2
        with ⟨s, hs1, hs2, hs3⟩
      exact ⟨s, by omega, hs2, hs3⟩

/-- The correlation headers of a run are pairwise distinct for an injective
entropy stream. -/
theorem runRequests_corr_nodup (env : InterceptorEnv) (ent : Nat → String)
    (hinj : Function.Injective fun k => "web_" ++ ent k) :
    ∀ (n : Nat) (st : ClientState),
      (((runRequests env ent st n).1).map (·.correlationId)).Nodup
  | 0, _ => by simp [runRequests]
  | n + 1, st => by
    simp only [runRequests, List.map_cons, List.nodup_cons]
    refine ⟨?_, runRequests_corr_nodup env ent hinj n (requestInterceptor env ent st).2⟩
    intro hmem
    rcases List.mem_map.mp hmem with ⟨h2, hh2, heq⟩
    rcases runRequests_corr_seed env ent n (requestInterceptor env ent st).2 h2 hh2
      with ⟨s, hs1, _, hs3⟩
    have hpost : ((requestInterceptor env ent st).2).seed
        = ((getDeviceId env ent st).2).seed + 1 := rfl
    have hc1 : (requestInterceptor env ent st).1.correlationId
        = "web_" ++ ent ((getDeviceId env ent st).2).seed := rfl
    have hss : s = ((getDeviceId env ent st).2).seed := by
      apply hinj
      show "web_" ++ ent s = "web_" ++ ent ((getDeviceId env ent st).2).seed
      rw [← hs3, heq, hc1]
    omega

/-- Every request of a run carries the bearer header exactly when in a
browser with a non-empty key. -/
theorem runRequests_auth (env : InterceptorEnv) (ent : Nat → String) :
    ∀ (n : Nat) (st : ClientState), ∀ h ∈ (runRequests env ent st n).1,
      h.authorization = if env.isBrowser && !(env.apiKey == "")
        then some ("Bearer " ++ env.apiKey) else none
  | 0, st, h, hm => absurd hm (by simp [runRequests])
  | n + 1, st, h, hm => by
    simp only [runRequests] at hm
    rcases List.mem_cons.mp hm with h1 | h2
    · subst h1
      exact requestInterceptor_auth env ent st
    · exact runRequests_auth env ent n (requestInterceptor env ent st).2 h h2

/-- C9 (amended): in any run of requests, every request carries the device
identifier fixed at first use, the correlation identifiers are freshly
drawn and pairwise distinct for an injective entropy stream, and the bearer
Authorization header is attached exactly when running in a browser with a
non-empty credential; server-side rendering attaches none. -/
theorem request_headers_decorated (env : InterceptorEnv) (ent : Nat → String)
    (st : ClientState) (n : Nat)
    (hinj : Function.Injective fun k => "web_" ++ ent k) :
    (∀ h ∈ (runRequests env ent st n).1, h.deviceId = (getDeviceId env ent st).1)
    ∧ (((runRequests env ent st n).1).map (·.correlationId)).Nodup
    ∧ (∀ h ∈ (runRequests env ent st n).1,
        h.authorization = if env.isBrowser && !(env.apiKey == "")
          then some ("Bearer " ++ env.apiKey) else none) :=
  ⟨runRequests_device_stable env ent n st,
   runRequests_corr_nodup env ent hinj n st,
   runRequests_auth env ent n st⟩

/-- The entropy stream used by the witness is injective after the web
prefix. -/
theorem replicate_web_injective :
    Function.Injective fun k : Nat => "web_" ++ String.mk (List.replicate k 'a') := by
  intro a b h
  have hd := congrArg String.data h
  rw [string_data_append, string_data_append] at hd
  have h2 : List.replicate a 'a' = List.replicate b 'a' :=
    List.append_cancel_left hd
  simpa using congrArg List.length h2

/-- Witness for C9: a three-request browser run with key k. -/
theorem request_headers_decorated_witness :
    (∀ h ∈ (runRequests ⟨true, "k"⟩ (fun k => String.mk (List.replicate k 'a'))
        ⟨none, none, 0⟩ 3).1,
      h.deviceId = (getDeviceId ⟨true, "k"⟩ (fun k => String.mk (List.replicate k 'a'))
        ⟨none, none, 0⟩).1)
    ∧ (((runRequests ⟨true, "k"⟩ (fun k => String.mk (List.replicate k 'a'))
        ⟨none, none, 0⟩ 3).1).map (·.correlationId)).Nodup
    ∧ (∀ h ∈ (runRequests ⟨true, "k"⟩ (fun k => String.mk (List.replicate k 'a'))
        ⟨none, none, 0⟩ 3).1,
      h.authorization = if (true : Bool) && !(("k" : String) == "")
        then some ("Bearer " ++ "k") else none) :=
  request_headers_decorated ⟨true, "k"⟩ (fun k => String.mk (List.replicate k 'a'))
    ⟨none, none, 0⟩ 3 replicate_web_injective

/-- Counterexample to C9 as stated: during server-side rendering (no window
object) a request carries no Authorization header even though the non-empty
credential secret is held. -/
theorem ssr_auth_header_missing :
    ((requestInterceptor ⟨false, "secret"⟩ (fun _ => "e") ⟨none, none, 0⟩).1).authorization
      = none
    ∧ ("secret" : String) ≠ "" := ⟨rfl, by decide⟩
